import Mathlib

/-!
Verification of the shopping-cart anomaly-reporting pipeline (src/app.py).

The app wires a Streamlit UI to two BigQuery read queries and an LLM-driven
orchestration step.  We shallowly embed the warehouse as lists of rows, the
two SQL tool functions as pure Lean functions over that state, and the
orchestration workflow (which the Python code delegates to an external agent
runtime guided by an instruction string) as the explicit two-stage state
machine the spec describes.
-/

namespace Agent

/-- A row of the sales-fact relation `Fact_Sales`. -/
structure SalesFactRow where
  order_id : String
  customer_sk : String
  product_sk : String
  quantity : Int
  deriving Repr, DecidableEq

/-- A row of the product-dimension relation `Dim_Product`. -/
structure ProductDimRow where
  product_sk : String
  product_name : String
  purchase_price : Int
  deriving Repr, DecidableEq

/-- A row of the customer-dimension relation `Dim_Customer`. -/
structure CustomerDimRow where
  customer_sk : String
  company_name : String
  deriving Repr, DecidableEq

/-- The read-only warehouse state visible to the two queries. -/
structure Warehouse where
  fact_sales : List SalesFactRow
  dim_product : List ProductDimRow
  dim_customer : List CustomerDimRow
  deriving Repr, DecidableEq

/-- One row of the result set of the first query: the SELECT list of
`get_high_basket_value_orders` in src/app.py. -/
structure OrderRow where
  order_id : String
  customer_sk : String
  quantity : Int
  product_name : String
  purchase_price : Int
  basket_value : Int
  deriving Repr, DecidableEq

/-- The INNER JOIN of `Fact_Sales` with `Dim_Product` on `product_sk`,
computing `basket_value = quantity * purchase_price` per joined row. -/
def joinRows (w : Warehouse) : List OrderRow :=
  w.fact_sales.flatMap fun s =>
    (w.dim_product.filter fun p => p.product_sk == s.product_sk).map fun p =>
      { order_id := s.order_id
        customer_sk := s.customer_sk
        quantity := s.quantity
        product_name := p.product_name
        purchase_price := p.purchase_price
        basket_value := s.quantity * p.purchase_price }

/-- The ORDER BY relation: descending by `basket_value`. -/
def bvDesc (a b : OrderRow) : Prop := b.basket_value ≤ a.basket_value

instance : DecidableRel bvDesc := fun a b =>
  inferInstanceAs (Decidable (b.basket_value ≤ a.basket_value))

instance : IsTotal OrderRow bvDesc :=
  ⟨fun a b => le_total b.basket_value a.basket_value⟩

instance : IsTrans OrderRow bvDesc :=
  ⟨fun _ _ _ h h' => le_trans h' h⟩

/-- Embedding of the tool `get_high_basket_value_orders(amount)`:
`WHERE (quantity * purchase_price) > amount`, `ORDER BY basket_value DESC`,
`LIMIT 5`. -/
def get_high_basket_value_orders (amount : Int) (w : Warehouse) : List OrderRow :=
  (((joinRows w).filter fun r => amount < r.basket_value).insertionSort bvDesc).take 5

/-- Embedding of the tool `get_customer_names_in_batch(customer_sks)`:
returns `\x7b\x7d` without querying when the id list is empty, otherwise one
`SELECT customer_sk, company_name FROM Dim_Customer WHERE customer_sk IN (...)`
returned as an association mapping. -/
def get_customer_names_in_batch (customer_sks : List String) (w : Warehouse) :
    List (String × String) :=
  if customer_sks.isEmpty then []
  else
    (w.dim_customer.filter fun c => customer_sks.contains c.customer_sk).map
      fun c => (c.customer_sk, c.company_name)

/-- Number of warehouse queries `get_customer_names_in_batch` issues for a
given id list: zero on the short-circuit branch, one batched query otherwise
(the body builds a single IN-clause query, never one per id). -/
def customerNamesQueryCount (customer_sks : List String) : Nat :=
  if customer_sks.isEmpty then 0 else 1

/-- The final output unit `AgentBasket` (src/app.py): one anomaly record. -/
structure AgentBasket where
  order_id : String
  company_name : String
  basket_value : Int
  issues : List String
  deriving Repr, DecidableEq

/-- Look a customer surrogate key up in the fetched mapping, defaulting to
the sentinel. Modelled from the spec: the EnrichmentJoiner resolution
`lookup.get(order.customer_sk, "UNKNOWN")`; in the Python code this
resolution is delegated to the language model. -/
def lookupName (lookup : List (String × String)) (sk : String) : String :=
  match lookup.find? fun p => p.1 == sk with
  | some p => p.2
  | none => "UNKNOWN"

/-- Modelled from the spec: EnrichmentJoiner.enrich — pair each order with
its resolved company name, preserving order and cardinality. -/
def enrich (orders : List OrderRow) (lookup : List (String × String)) :
    List (OrderRow × String) :=
  orders.map fun o => (o, lookupName lookup o.customer_sk)

/-- Modelled from the spec: AnomalyFormatter.format — one `AgentBasket` per
enriched order, with the issue text of the agent instruction's example. -/
def formatReport (enriched : List (OrderRow × String)) : List AgentBasket :=
  enriched.map fun e =>
    { order_id := e.1.order_id
      company_name := e.2
      basket_value := e.1.basket_value
      issues := ["High basket value"] }

/-- One run's observable trace: how often each tool was invoked, and the
report it produced. -/
structure RunTrace where
  ordersCalls : Nat
  namesCalls : Nat
  report : List AgentBasket
  deriving Repr, DecidableEq

/-- Modelled from the spec: the two-stage WorkflowOrchestrator state machine
(spec §4.4) that the Python code delegates to the agent runtime via the
instruction string of `shopping_cart_anomaly_agent`: fetch high-basket
orders once; if the batch is empty, finish with an empty report; otherwise
fetch the distinct customer names once, enrich, and format. -/
def runWorkflow (threshold : Int) (w : Warehouse) : RunTrace :=
  let orders := get_high_basket_value_orders threshold w
  if orders = [] then
    { ordersCalls := 1, namesCalls := 0, report := [] }
  else
    let sks := (orders.map fun o => o.customer_sk).dedup
    let lookup := get_customer_names_in_batch sks w
    { ordersCalls := 1, namesCalls := 1, report := formatReport (enrich orders lookup) }

/-- The error kinds a run can fail with (spec §7). -/
inductive RunError where
  | DataUnavailable
  | MalformedResponse
  | Timeout
  deriving Repr, DecidableEq

/-- Modelled from the spec: the bounded orchestration loop behind
`Runner.run(..., max_turns=10)`. `policy i` is what the model does on turn
`i`: `some out` produces the final output, `none` takes another turn.  The
loop consumes at most `fuel` turns and fails with `Timeout` when the budget
is exhausted. -/
def runLoop (policy : Nat → Option String) : Nat → Nat → Except RunError String
  | 0, _ => .error .Timeout
  | fuel + 1, turn =>
    match policy turn with
    | some out => .ok out
    | none => runLoop policy fuel (turn + 1)

/-- `Runner.run(shopping_cart_anomaly_agent, input_message, max_turns=10)`:
the turn budget is the literal 10 of src/app.py line 155. -/
def runnerRun (policy : Nat → Option String) : Except RunError String :=
  runLoop policy 10 0

/-- JSON rendering of one record, following the example final message in the
agent instructions. -/
def recordJson (r : AgentBasket) : String :=
  "\x7b\"order_id\": \"" ++ r.order_id ++ "\", \"company_name\": \"" ++
    r.company_name ++ "\", \"basket_value\": " ++ toString r.basket_value ++
    ", \"issues\": [" ++ String.intercalate ", " (r.issues.map fun s => "\"" ++ s ++ "\"") ++
    "]\x7d"

/-- JSON rendering of a report; the empty report renders as the literal
`[]` the instructions mandate. -/
def reportJson (report : List AgentBasket) : String :=
  "[" ++ String.intercalate ", " (report.map recordJson) ++ "]"

/-- What the `run_btn` handler shows in the UI. -/
inductive Presentation where
  /-- `st.info(...)`: the informational no-anomalies message. -/
  | info (msg : String)
  /-- `st.json(parsed)`: the parsed report. -/
  | jsonView (s : String)
  /-- `st.write(output)`: raw output that did not parse as JSON. -/
  | rawView (s : String)
  /-- `st.error(...)`: an explicit error message. -/
  | errorMsg (msg : String)
  deriving Repr, DecidableEq

/-- Rendering of an error kind inside the handler's error message. -/
def errText : RunError → String
  | .DataUnavailable => "DataUnavailable"
  | .MalformedResponse => "MalformedResponse"
  | .Timeout => "Timeout"

/-- Embedding of the `run_btn` handler (src/app.py lines 150-169): on
success, an empty or `[]` output is shown with `st.info`, anything else via
`st.json` when it parses (`jsonParses` abstracts `json.loads` succeeding)
or `st.write` otherwise; an exception is shown with `st.error`. -/
def handleRun (jsonParses : String → Bool) : Except RunError String → Presentation
  | .ok out =>
    if out = "" ∨ out = "[]" then .info "No high-value orders found."
    else if jsonParses out then .jsonView out
    else .rawView out
  | .error e => .errorMsg ("Error running agent: " ++ errText e)

/-- Embedding of the threshold widget `st.number_input("Threshold Amount",
max_value=400, value=300, step=50)` (src/app.py lines 140-145): a value is
accepted iff it does not exceed the configured maximum; no `min_value` is
set, so there is no lower bound. -/
def thresholdAccepted (v : Int) : Bool := v ≤ 400

/-- A tiny concrete warehouse used to exercise the definitions. -/
def demoWarehouse : Warehouse :=
  { fact_sales := [
      { order_id := "O1", customer_sk := "C1", product_sk := "P1", quantity := 10 },
      { order_id := "O2", customer_sk := "C2", product_sk := "P1", quantity := 2 }]
    dim_product := [
      { product_sk := "P1", product_name := "Widget", purchase_price := 125 }]
    dim_customer := [
      { customer_sk := "C1", company_name := "Acme Corp" }] }

/-- A standalone order row used to exercise the enrichment default. -/
def demoOrder : OrderRow :=
  { order_id := "O9", customer_sk := "C9", quantity := 1,
    product_name := "Widget", purchase_price := 500, basket_value := 500 }

/-! ## Theorems -/

/-- Membership in the first query's result implies the row comes from the
join and passed the `basket_value > amount` filter. -/
theorem mem_get_high_basket_value_orders {amount : Int} {w : Warehouse} {r : OrderRow}
    (h : r ∈ get_high_basket_value_orders amount w) :
    r ∈ joinRows w ∧ amount < r.basket_value := by
  unfold get_high_basket_value_orders at h
  have h₁ := List.mem_of_mem_take h
  have h₂ := (List.perm_insertionSort bvDesc _).subset h₁
  have h₃ := List.mem_filter.mp h₂
  exact ⟨h₃.1, of_decide_eq_true h₃.2⟩

/-- Every record of the report arises from an order of the fetched batch
with the same `basket_value`. -/
theorem report_record_from_order {t : Int} {w : Warehouse} {r : AgentBasket}
    (h : r ∈ (runWorkflow t w).report) :
    ∃ o ∈ get_high_basket_value_orders t w, r.basket_value = o.basket_value := by
  simp only [runWorkflow] at h
  split at h
  · simp at h
  · simp only [formatReport, enrich, List.map_map, List.mem_map] at h
    obtain ⟨o, ho, rfl⟩ := h
    exact ⟨o, ho, rfl⟩

/-- Claim C1: in every run with threshold `t`, every record of the produced
report has `basket_value` strictly greater than `t`; no at-or-below-threshold
record appears. -/
theorem report_basket_value_gt_threshold (t : Int) (w : Warehouse) :
    ∀ r ∈ (runWorkflow t w).report, t < r.basket_value := by
  intro r hr
  obtain ⟨o, ho, hbv⟩ := report_record_from_order hr
  rw [hbv]
  exact (mem_get_high_basket_value_orders ho).2

/-- Witness for C1: the demo warehouse at threshold 300 yields a record,
and its basket value 1250 exceeds 300. -/
theorem report_basket_value_gt_threshold_witness :
    (300 : Int) < (AgentBasket.mk "O1" "Acme Corp" 1250 ["High basket value"]).basket_value :=
  report_basket_value_gt_threshold 300 demoWarehouse
    (AgentBasket.mk "O1" "Acme Corp" 1250 ["High basket value"]) (by decide)

/-- Claim C2: the report of every run is sorted non-increasing by
`basket_value` (so in particular every non-empty report is). -/
theorem report_sorted_desc (t : Int) (w : Warehouse) :
    List.Sorted (fun a b : AgentBasket => b.basket_value ≤ a.basket_value)
      (runWorkflow t w).report := by
  simp only [runWorkflow]
  split
  · simp
  · have hsorted : List.Sorted bvDesc (get_high_basket_value_orders t w) := by
      unfold get_high_basket_value_orders
      exact (List.sorted_insertionSort bvDesc _).sublist (List.take_sublist 5 _)
    simp only [formatReport, enrich, List.map_map]
    rw [List.Sorted, List.pairwise_map]
    exact hsorted.imp fun h => h

/-- Claim C10: for every threshold, the first query returns at most 5 rows;
the limit is the literal `LIMIT 5` of the query text, not a parameter. -/
theorem orders_limited_to_five (amount : Int) (w : Warehouse) :
    (get_high_basket_value_orders amount w).length ≤ 5 :=
  List.length_take_le 5 _

/-- Claim C3: in every run the order fetch happens exactly once, and the
customer-name fetch happens exactly once — zero times when the fetched
order batch is empty; neither tool is ever invoked more than once. -/
theorem tools_called_once (t : Int) (w : Warehouse) :
    (runWorkflow t w).ordersCalls = 1 ∧
    (runWorkflow t w).namesCalls =
      if get_high_basket_value_orders t w = [] then 0 else 1 := by
  by_cases h : get_high_basket_value_orders t w = [] <;> simp [runWorkflow, h]

/-- Claim C8: the whole pipeline is a function of threshold and warehouse
state: two runs with identical threshold against an unchanged warehouse
produce identical reports, equal in order and content. -/
theorem run_idempotent (t₁ t₂ : Int) (w₁ w₂ : Warehouse)
    (ht : t₁ = t₂) (hw : w₁ = w₂) :
    (runWorkflow t₁ w₁).report = (runWorkflow t₂ w₂).report := by
  subst ht
  subst hw
  rfl

/-- Witness for C8 at threshold 300 on the demo warehouse. -/
theorem run_idempotent_witness :
    (runWorkflow 300 demoWarehouse).report = (runWorkflow 300 demoWarehouse).report :=
  run_idempotent 300 300 demoWarehouse demoWarehouse rfl rfl

/-- Claim C4: when an order's `customer_sk` is absent from the fetched
lookup mapping, the record emitted for it carries the sentinel company name
`UNKNOWN`; absence is never an error. -/
theorem absent_customer_is_unknown (orders : List OrderRow)
    (lookup : List (String × String)) (i : Nat) (h : i < orders.length)
    (habs : lookup.find? (fun p => p.1 == (orders.get ⟨i, h⟩).customer_sk) = none) :
    ((formatReport (enrich orders lookup)).get
        ⟨i, by simpa [formatReport, enrich] using h⟩).company_name = "UNKNOWN" := by
  simp only [List.get_eq_getElem] at habs
  simp [formatReport, enrich, List.get_eq_getElem, lookupName, habs]

/-- Witness for C4: an order whose customer is missing from an empty lookup
is reported with company name `UNKNOWN`. -/
theorem absent_customer_is_unknown_witness :
    ((formatReport (enrich [demoOrder] [])).get ⟨0, by decide⟩).company_name = "UNKNOWN" :=
  absent_customer_is_unknown [demoOrder] [] 0 (by decide) (by decide)

/-- Claim C5: the batched customer-name fetch returns the empty mapping and
issues no query on the empty id list; a non-empty id list issues exactly one
batched query; and every returned pair comes from a row of the customer
dimension (so only existing ids appear). -/
theorem customer_batch_contract (w : Warehouse) :
    (get_customer_names_in_batch [] w = [] ∧ customerNamesQueryCount [] = 0) ∧
    (∀ sks : List String, sks ≠ [] → customerNamesQueryCount sks = 1) ∧
    (∀ (sks : List String) (k v : String),
      (k, v) ∈ get_customer_names_in_batch sks w →
      ∃ c ∈ w.dim_customer, c.customer_sk = k ∧ c.company_name = v) := by
  refine ⟨⟨rfl, rfl⟩, ?_, ?_⟩
  · intro sks hne
    cases sks with
    | nil => exact absurd rfl hne
    | cons a l => rfl
  · intro sks k v hmem
    unfold get_customer_names_in_batch at hmem
    split at hmem
    · simp at hmem
    · simp only [List.mem_map, List.mem_filter] at hmem
      obtain ⟨c, ⟨hc, _⟩, heq⟩ := hmem
      exact ⟨c, hc, (Prod.ext_iff.mp heq).1, (Prod.ext_iff.mp heq).2⟩

/-- Witness for C5 on the demo warehouse: a singleton id list counts one
query, and the pair it returns comes from the customer dimension. -/
theorem customer_batch_contract_witness :
    customerNamesQueryCount ["C1"] = 1 ∧
    ∃ c ∈ demoWarehouse.dim_customer, c.customer_sk = "C1" ∧ c.company_name = "Acme Corp" :=
  ⟨(customer_batch_contract demoWarehouse).2.1 ["C1"] (by decide),
   (customer_batch_contract demoWarehouse).2.2 ["C1"] "C1" "Acme Corp" (by decide)⟩

/-- Claim C6: the handler shows an empty report with the informational
no-anomalies message, shows every error outcome with the explicit error
message, and the two presentations are never the same. -/
theorem empty_report_vs_error_distinct (jsonParses : String → Bool) (e : RunError) :
    handleRun jsonParses (.ok (reportJson [])) = .info "No high-value orders found." ∧
    handleRun jsonParses (.error e) = .errorMsg ("Error running agent: " ++ errText e) ∧
    handleRun jsonParses (.ok (reportJson [])) ≠ handleRun jsonParses (.error e) := by
  have hempty : reportJson [] = "[]" := rfl
  refine ⟨by rw [hempty]; simp [handleRun], rfl, ?_⟩
  rw [hempty]
  simp [handleRun]

/-- Every outcome of the bounded loop is a timeout or a produced output. -/
theorem runLoop_result (policy : Nat → Option String) :
    ∀ fuel turn : Nat, runLoop policy fuel turn = .error .Timeout ∨
      ∃ out, runLoop policy fuel turn = .ok out := by
  intro fuel
  induction fuel with
  | zero => exact fun _ => Or.inl rfl
  | succ n ih =>
    intro turn
    cases hp : policy turn with
    | some out => exact Or.inr ⟨out, by simp [runLoop, hp]⟩
    | none =>
      have hstep : runLoop policy (n + 1) turn = runLoop policy n (turn + 1) := by
        simp [runLoop, hp]
      rw [hstep]
      exact ih (turn + 1)

/-- If the policy produces no output on any turn of the window, the bounded
loop times out. -/
theorem runLoop_timeout (policy : Nat → Option String) :
    ∀ fuel turn : Nat, (∀ i, turn ≤ i → i < turn + fuel → policy i = none) →
      runLoop policy fuel turn = .error .Timeout := by
  intro fuel
  induction fuel with
  | zero => exact fun _ _ => rfl
  | succ n ih =>
    intro turn hnone
    have hp : policy turn = none := hnone turn le_rfl (by omega)
    have hstep : runLoop policy (n + 1) turn = runLoop policy n (turn + 1) := by
      simp [runLoop, hp]
    rw [hstep]
    exact ih (turn + 1) fun i h1 h2 => hnone i (by omega) (by omega)

/-- Claim C7: every run of the bounded orchestration loop terminates with a
result — a produced output or `Timeout` — and when the model produces no
final output within the 10-turn budget the run fails with `Timeout` instead
of hanging; no retry continues past the budget. -/
theorem run_bounded_by_turn_budget (policy : Nat → Option String) :
    (runnerRun policy = .error .Timeout ∨ ∃ out, runnerRun policy = .ok out) ∧
    ((∀ i, i < 10 → policy i = none) → runnerRun policy = .error .Timeout) := by
  constructor
  · exact runLoop_result policy 10 0
  · intro hnone
    exact runLoop_timeout policy 10 0 fun i _ h2 => hnone i (by omega)

/-- Witness for C7: a policy that never answers times out after the budget. -/
theorem run_bounded_by_turn_budget_witness :
    runnerRun (fun _ => none) = .error .Timeout :=
  (run_bounded_by_turn_budget (fun _ => none)).2 fun _ _ => rfl

/-- Counterexample to claim C9 as stated: the threshold widget sets
`max_value=400` but no `min_value`, so the value -50 — strictly below 0 —
is accepted at the input interface. -/
theorem threshold_no_lower_bound :
    thresholdAccepted (-50) = true ∧ (-50 : Int) < 0 := by decide

/-- Claim C9 amended: the accepted thresholds are exactly the values at most
400 — the upper bound is enforced, but no lower bound is. -/
theorem threshold_upper_bound_only (v : Int) :
    thresholdAccepted v = true ↔ v ≤ 400 := by
  simp [thresholdAccepted]

/-- Witness for the amended C9 at the default value 300. -/
theorem threshold_upper_bound_only_witness :
    thresholdAccepted 300 = true ↔ (300 : Int) ≤ 400 :=
  threshold_upper_bound_only 300

end Agent
